import Mathlib

/-!
Verification development for the TalkAssist voice assistant
(`main.py`, `time_parser.py`, `tools.py`, `offline_mode.py`).

The embedding follows the Python source:

* `datetime` values are modelled as minutes since an epoch that falls on a
  Monday at 00:00, so that `weekdayOf` agrees with Python's
  `datetime.weekday()` convention (Monday = 0).
* text is modelled as a list of characters; the regular-expression
  operations of `TimeParser` all use word boundaries and single blanks, so
  they are rendered as functions over the list of blank-separated tokens,
  while plain `in`-substring tests of the Python code are rendered as
  character-level substring search.
* fallible file writes are modelled by an explicit `WriteEvent` describing
  where the write stopped.
-/

namespace TalkAssist

/-- Minutes since an epoch placed at a Monday 00:00; models Python `datetime`. -/
abbrev DateTime := Nat

/-- The calendar day index of a datetime (models `dt.date()`). -/
def dayOf (t : DateTime) : Nat := t / 1440

/-- Minutes into the day (models `dt.time()` as minutes). -/
def minuteOfDay (t : DateTime) : Nat := t % 1440

/-- Models `dt.weekday()`: Monday = 0 … Sunday = 6 (epoch day 0 is a Monday). -/
def weekdayOf (t : DateTime) : Nat := dayOf t % 7

/-- Models `datetime.combine(date, time)` with `time` given in minutes. -/
def combineDT (day : Nat) (tod : Nat) : DateTime := day * 1440 + tod

/-- Models `dt + timedelta(days = d)`. -/
def addDays (t : DateTime) (d : Nat) : DateTime := t + 1440 * d

/-- Models `dt.replace(hour := h, minute := m, second := 0, microsecond := 0)`. -/
def replaceHM (t : DateTime) (h m : Nat) : DateTime := combineDT (dayOf t) (h * 60 + m)

/-! ### Character and token utilities -/

abbrev Chars := List Char
abbrev Tok := List Char

def lowerChars (cs : Chars) : Chars := cs.map Char.toLower

def isBlank (c : Char) : Bool := c = ' '

/-- Models `str.strip()` for blank-separated text. -/
def trimChars (cs : Chars) : Chars :=
  ((cs.dropWhile isBlank).reverse.dropWhile isBlank).reverse

/-- Character-level substring test: models Python's `pat in text`. -/
def subOccurs (pat : Chars) : Chars → Bool
  | [] => pat.isEmpty
  | c :: cs => pat.isPrefixOf (c :: cs) || subOccurs pat cs

/-- One fuel-indexed step of non-overlapping left-to-right replacement. -/
def replaceAllFuel (pat rep : Chars) : Nat → Chars → Chars
  | 0, cs => cs
  | _ + 1, [] => []
  | n + 1, c :: cs =>
    if !pat.isEmpty && pat.isPrefixOf (c :: cs) then
      rep ++ replaceAllFuel pat rep n ((c :: cs).drop pat.length)
    else
      c :: replaceAllFuel pat rep n cs

/-- Models Python `str.replace(pat, rep)` (all occurrences, left to right). -/
def replaceAll (pat rep cs : Chars) : Chars := replaceAllFuel pat rep cs.length cs

/-- Splits text into blank-separated tokens (empty tokens dropped). -/
def tokenize (cs : Chars) : List Tok :=
  (cs.splitOn ' ').filter (fun t => !t.isEmpty)

/-- Rejoins tokens with single blanks. -/
def joinTokens (ts : List Tok) : Chars := List.intercalate [' '] ts

def isDigitsTok (t : Tok) : Bool := !t.isEmpty && t.all Char.isDigit

def digitsVal (t : Tok) : Nat := t.foldl (fun n c => n * 10 + (c.toNat - 48)) 0

/-! ### `TimeParser._convert_words_to_numbers` (`time_parser.py` 122-134) -/

def wordNumPairs : List (Chars × Chars) :=
  [("one".data, "1".data), ("two".data, "2".data), ("three".data, "3".data),
   ("four".data, "4".data), ("five".data, "5".data), ("six".data, "6".data),
   ("seven".data, "7".data), ("eight".data, "8".data), ("nine".data, "9".data),
   ("ten".data, "10".data), ("eleven".data, "11".data), ("twelve".data, "12".data),
   ("fifteen".data, "15".data), ("twenty".data, "20".data), ("thirty".data, "30".data),
   ("forty".data, "40".data), ("fifty".data, "50".data), ("sixty".data, "60".data)]

def convertWordsToNumbers (cs : Chars) : Chars :=
  wordNumPairs.foldl (fun t p => replaceAll p.1 p.2 t) cs

/-! ### `TimeParser._extract_time` (`time_parser.py` 137-197)

Each Python regex is rendered as a scan over the blank-separated tokens;
the patterns only use `\d`, `[:.]`, `\s` and the meridiem alternation
`(am|pm|a\.m\.|p\.m\.)`, so a clock can sit inside one token (`10:30am`)
or be split over two (`10:30 am`). -/

/-- Matches the meridiem alternation as a prefix of a token; `some true` = pm. -/
def ampmTok? (t : Tok) : Option Bool :=
  if ("am".data).isPrefixOf t then some false
  else if ("pm".data).isPrefixOf t then some true
  else if ("a.m.".data).isPrefixOf t then some false
  else if ("p.m.".data).isPrefixOf t then some true
  else none

/-- The last at most two digits of a digit run: where the Python regexes
`(\d{1,2})` match immediately before a meridiem inside a longer run. -/
def lastTwo (ds : Chars) : Chars := ds.drop (ds.length - 2)

/-- The 12-hour adjustment shared by the extraction patterns
(`pm` and hour ≠ 12 adds 12; `am` and hour 12 becomes 0). -/
def adjustHour (h : Nat) (pm : Bool) : Nat :=
  if pm then (if h ≠ 12 then h + 12 else h) else (if h = 12 then 0 else h)

/-- Pattern `(\d{1,2})[:.](\d{2})\s*(am|pm|a\.m\.|p\.m\.)` at one token. -/
def p2Tok? (t : Tok) (next : Option Tok) : Option (Nat × Nat × Bool) :=
  let (ds, rest) := t.span Char.isDigit
  if ds.isEmpty || decide (2 < ds.length) then none
  else
    match rest with
    | sep :: rest2 =>
      if sep = ':' || sep = '.' then
        let (ms, rest3) := rest2.span Char.isDigit
        if ms.length = 2 then
          if rest3.isEmpty then
            match next with
            | some u => (ampmTok? u).map (fun pm => (digitsVal ds, digitsVal ms, pm))
            | none => none
          else (ampmTok? rest3).map (fun pm => (digitsVal ds, digitsVal ms, pm))
        else none
      else none
    | [] => none

def p2Find : List Tok → Option (Nat × Nat × Bool)
  | [] => none
  | t :: ts =>
    match p2Tok? t ts.head? with
    | some r => some r
    | none => p2Find ts

/-- Pattern `(\d{1,2})\s*(am|pm|a\.m\.|p\.m\.)` at one token. -/
def p1Tok? (t : Tok) (next : Option Tok) : Option (Nat × Bool) :=
  let (ds, rest) := t.span Char.isDigit
  if ds.isEmpty then none
  else if rest.isEmpty then
    match next with
    | some u => (ampmTok? u).map (fun pm => (digitsVal (lastTwo ds), pm))
    | none => none
  else (ampmTok? rest).map (fun pm => (digitsVal (lastTwo ds), pm))

def p1Find : List Tok → Option (Nat × Bool)
  | [] => none
  | t :: ts =>
    match p1Tok? t ts.head? with
    | some r => some r
    | none => p1Find ts

/-- Pattern `(\d{1,2})\s+(\d{2})\s*(am|pm|a\.m\.|p\.m\.)` at one token. -/
def pbTok? (t : Tok) (next : Option Tok) (next2 : Option Tok) : Option (Nat × Nat × Bool) :=
  if isDigitsTok t then
    match next with
    | some u =>
      let (ms, rest) := u.span Char.isDigit
      if ms.length = 2 then
        if rest.isEmpty then
          match next2 with
          | some v => (ampmTok? v).map (fun pm => (digitsVal (lastTwo t), digitsVal ms, pm))
          | none => none
        else (ampmTok? rest).map (fun pm => (digitsVal (lastTwo t), digitsVal ms, pm))
      else none
    | none => none
  else none

def pbFind : List Tok → Option (Nat × Nat × Bool)
  | [] => none
  | t :: ts =>
    match pbTok? t ts.head? (ts.drop 1).head? with
    | some r => some r
    | none => pbFind ts

/-- Pattern `\b(\d{3,4})\s*(am|pm|a\.m\.|p\.m\.)\b` at one token. -/
def pcTok? (t : Tok) (next : Option Tok) : Option (Nat × Nat × Bool) :=
  let (ds, rest) := t.span Char.isDigit
  if ds.length = 3 || ds.length = 4 then
    let raw := digitsVal ds
    if rest.isEmpty then
      match next with
      | some u =>
        if u = "am".data then some (raw / 100, raw % 100, false)
        else if u = "pm".data then some (raw / 100, raw % 100, true)
        else none
      | none => none
    else if rest = "am".data then some (raw / 100, raw % 100, false)
    else if rest = "pm".data then some (raw / 100, raw % 100, true)
    else none
  else none

def pcFind : List Tok → Option (Nat × Nat × Bool)
  | [] => none
  | t :: ts =>
    match pcTok? t ts.head? with
    | some r => some r
    | none => pcFind ts

/-- Does a token start like the lookahead `[ap]\.?m\.?` of pattern 3? -/
def ampmLookahead (t : Tok) : Bool :=
  match t with
  | a :: rest =>
    (a = 'a' || a = 'p') &&
      (match rest with
       | 'm' :: _ => true
       | '.' :: 'm' :: _ => true
       | _ => false)
  | [] => false

/-- Pattern `(\d{1,2})[:.](\d{2})(?!\s*[ap]\.?m\.?)` at one token. -/
def p3Tok? (t : Tok) (next : Option Tok) : Option (Nat × Nat) :=
  let (ds, rest) := t.span Char.isDigit
  if ds.isEmpty || decide (2 < ds.length) then none
  else
    match rest with
    | sep :: rest2 =>
      if sep = ':' || sep = '.' then
        let (ms, rest3) := rest2.span Char.isDigit
        if ms.length = 2 then
          if rest3.isEmpty then
            match next with
            | some u => if ampmLookahead u then none else some (digitsVal ds, digitsVal ms)
            | none => some (digitsVal ds, digitsVal ms)
          else if ampmLookahead rest3 then none
          else some (digitsVal ds, digitsVal ms)
        else none
      else none
    | [] => none

def p3Find : List Tok → Option (Nat × Nat)
  | [] => none
  | t :: ts =>
    match p3Tok? t ts.head? with
    | some r => some r
    | none => p3Find ts

/-- Tail of `_extract_time`: pattern 3 (24-hour clock). -/
def extractTime3 (ts : List Tok) : Option Nat :=
  match p3Find ts with
  | some (h, m) => if h < 24 && m < 60 then some (h * 60 + m) else none
  | none => none

/-- `_extract_time` after patterns 2/1/b: pattern `\b(\d{3,4})\s*(am|pm)…`. -/
def extractTimeC (ts : List Tok) : Option Nat :=
  match pcFind ts with
  | some (h, m, pm) =>
    let h2 := adjustHour h pm
    if h2 < 24 && m < 60 then some (h2 * 60 + m) else extractTime3 ts
  | none => extractTime3 ts

/-- `_extract_time` after patterns 2/1: pattern `(\d{1,2})\s+(\d{2})\s*(am|pm)…`. -/
def extractTimeB (ts : List Tok) : Option Nat :=
  match pbFind ts with
  | some (h, m, pm) =>
    let h2 := adjustHour h pm
    if h2 < 24 && m < 60 then some (h2 * 60 + m) else extractTimeC ts
  | none => extractTimeC ts

/-- `_extract_time` after pattern 2: pattern `(\d{1,2})\s*(am|pm)…`. -/
def extractTime1 (ts : List Tok) : Option Nat :=
  match p1Find ts with
  | some (h, pm) =>
    let h2 := adjustHour h pm
    if h2 < 24 then some (h2 * 60) else extractTimeB ts
  | none => extractTimeB ts

/-- Models `TimeParser._extract_time`: the five clock patterns in source order,
returning the time of day in minutes. -/
def extractTime (ts : List Tok) : Option Nat :=
  match p2Find ts with
  | some (h, m, pm) =>
    let h2 := adjustHour h pm
    if h2 < 24 && m < 60 then some (h2 * 60 + m) else extractTime1 ts
  | none => extractTime1 ts

/-! ### Day-part normalization (`time_parser.py` 34-41) -/

/-- The `daypart_defaults` dictionary in source order, with the replacement
clock already split into tokens (`"9 am"` becomes `["9", "am"]`). -/
def daypartList : List (Tok × List Tok) :=
  [("morning".data, ["9".data, "am".data]),
   ("afternoon".data, ["3".data, "pm".data]),
   ("evening".data, ["7".data, "pm".data]),
   ("night".data, ["9".data, "pm".data])]

/-- Models `re.sub(r'\btonight\b', 'today night', text)`. -/
def tonightSub (ts : List Tok) : List Tok :=
  ts.foldr
    (fun t acc => if t = "tonight".data then "today".data :: "night".data :: acc else t :: acc)
    []

def weekdayFullNames : List Tok :=
  ["monday".data, "tuesday".data, "wednesday".data, "thursday".data,
   "friday".data, "saturday".data, "sunday".data]

/-- Models `re.sub(rf'\b(tomorrow|today|next\s+\w+)\s+{part}\b', rf'\1 at {clock}', text)`. -/
def relDaySub (part : Tok) (clock : List Tok) : List Tok → List Tok
  | [] => []
  | [t] => [t]
  | a :: b :: rest =>
    if (a = "tomorrow".data || a = "today".data) && b = part then
      a :: "at".data :: (clock ++ relDaySub part clock rest)
    else if a = "next".data then
      match rest with
      | [] => a :: b :: rest
      | c :: rest2 =>
        if c = part then a :: b :: "at".data :: (clock ++ relDaySub part clock rest2)
        else a :: relDaySub part clock (b :: c :: rest2)
    else a :: relDaySub part clock (b :: rest)

/-- Models `re.sub(rf'\b(monday|…|sunday)\s+{part}\b', rf'\1 at {clock}', text)`. -/
def weekdaySub (part : Tok) (clock : List Tok) : List Tok → List Tok
  | [] => []
  | [t] => [t]
  | a :: b :: rest =>
    if weekdayFullNames.contains a && b = part then
      a :: "at".data :: (clock ++ weekdaySub part clock rest)
    else a :: weekdaySub part clock (b :: rest)

/-- Matches `\d+\s*(am|pm)` at the head of a token list. -/
def numAmPmHead : List Tok → Bool
  | [] => false
  | t :: rest =>
    let (ds, r) := t.span Char.isDigit
    if ds.isEmpty then false
    else if r.isEmpty then
      match rest with
      | u :: _ => ("am".data).isPrefixOf u || ("pm".data).isPrefixOf u
      | [] => false
    else ("am".data).isPrefixOf r || ("pm".data).isPrefixOf r

/-- The day words of the second-loop guard regex
`\b(tomorrow|today|monday|…|sunday)\s+(at\s+)?\d+\s*(am|pm)`. -/
def guardDaySet : List Tok :=
  "tomorrow".data :: "today".data :: weekdayFullNames

/-- The `\s+(at\s+)?\d+\s*(am|pm)` tail of the guard regex. -/
def guardTail (ts : List Tok) : Bool :=
  numAmPmHead ts ||
    (match ts with
     | t :: rest => t = "at".data && numAmPmHead rest
     | [] => false)

/-- Models `re.search` for the guard regex over the whole text. -/
def guardSearch : List Tok → Bool
  | [] => false
  | t :: rest => (guardDaySet.contains t && guardTail rest) || guardSearch rest

/-- Models `re.sub(rf'\b{part}\b', f'today at {clock}', text)` of the second loop. -/
def barePartSub (part : Tok) (clock : List Tok) (ts : List Tok) : List Tok :=
  ts.foldr
    (fun t acc =>
      if t = part then "today".data :: "at".data :: (clock ++ acc) else t :: acc)
    []

/-- The full normalization prefix of `parse_time` (`time_parser.py` 35-41):
the `tonight` rewrite, then both day-part loops in source order. -/
def daypartNormalize (ts : List Tok) : List Tok :=
  let ts := tonightSub ts
  let ts := daypartList.foldl (fun acc p => weekdaySub p.1 p.2 (relDaySub p.1 p.2 acc)) ts
  daypartList.foldl (fun acc p => if guardSearch acc then acc else barePartSub p.1 p.2 acc) ts

/-! ### `TimeParser.parse_time` (`time_parser.py` 30-120) -/

/-- The `days_of_week` dictionary of `TimeParser.__init__`, in source order. -/
def daysOfWeek : List (Chars × Nat) :=
  [("monday".data, 0), ("mon".data, 0),
   ("tuesday".data, 1), ("tue".data, 1), ("tues".data, 1),
   ("wednesday".data, 2), ("wed".data, 2),
   ("thursday".data, 3), ("thu".data, 3), ("thur".data, 3), ("thurs".data, 3),
   ("friday".data, 4), ("fri".data, 4),
   ("saturday".data, 5), ("sat".data, 5),
   ("sunday".data, 6), ("sun".data, 6)]

/-- The first weekday whose name occurs in the text, in dictionary order
(models the `for day_name, day_num in self.days_of_week.items()` loop). -/
def findWeekday (text : Chars) : Option Nat :=
  (daysOfWeek.find? (fun p => subOccurs p.1 text)).map (fun p => p.2)

inductive UnitKind
  | minutes
  | hours
  | days
deriving DecidableEq, Repr

/-- Classifies the unit alternation `(minute|minutes|min|mins|hour|hours|hr|hrs|day|days)`
matched as a prefix of a token, as consumed by the `'minute' in unit` tests. -/
def unitOf (t : Tok) : Option UnitKind :=
  if ("min".data).isPrefixOf t then some UnitKind.minutes
  else if ("hour".data).isPrefixOf t then some UnitKind.hours
  else if ("hr".data).isPrefixOf t then some UnitKind.hours
  else if ("day".data).isPrefixOf t then some UnitKind.days
  else none

/-- Models `re.search(r'in (\d+) (minute|…|days)', text)`: the literal `in`
must end a token (it is followed by a blank in the pattern). -/
def searchInUnits : List Tok → Option (Nat × UnitKind)
  | a :: b :: c :: rest =>
    if ("in".data).isSuffixOf a && isDigitsTok b then
      match unitOf c with
      | some u => some (digitsVal b, u)
      | none => searchInUnits (b :: c :: rest)
    else searchInUnits (b :: c :: rest)
  | _ => none

/-- The result triple of `parse_time`: `(time, success, error)`. -/
abbrev ParsedTime := Option DateTime × Bool × Option String

def msgAlreadyPassed : String := "that time has already passed today"

def msgCouldNotUnderstand : String :=
  "Could not understand the time. Try formmats like \x272 hours\x27, \x27tomorrow at 1pm\x27, or \x27monday at 1pm\x27"

/-- Pattern 3 of `parse_time`: `today at <time>` (`time_parser.py` 76-85).
A past or present time is a failure, not a rollover. -/
def todayBranch (now : DateTime) (tod : Nat) : ParsedTime :=
  let target := combineDT (dayOf now) tod
  if target ≤ now then (none, false, some msgAlreadyPassed)
  else (some target, true, none)

/-- Pattern 5 of `parse_time`: a bare clock time (`time_parser.py` 108-118).
A time that has passed is scheduled for tomorrow. -/
def bareClockBranch (now : DateTime) (tod : Nat) : ParsedTime :=
  let target := combineDT (dayOf now) tod
  let target := if target ≤ now then combineDT (dayOf (addDays now 1)) tod else target
  (some target, true, none)

/-- The `days_ahead` computation of pattern 4 (`time_parser.py` 89-97):
distance to the named weekday, with `next` forcing at least a week. -/
def weekdayDaysAhead (dayNum nowWd : Nat) (hasNext : Bool) : Nat :=
  let da : Int := (dayNum : Int) - (nowWd : Int)
  let da : Int := if da < 0 then da + 7 else da
  let da : Int := if hasNext && da < 7 then da + 7 else da
  da.toNat

/-- Pattern 4 of `parse_time`: weekday names (`time_parser.py` 86-107). -/
def weekdayBranch (now : DateTime) (dayNum : Nat) (hasNext : Bool) (tm : Option Nat) : ParsedTime :=
  let target := addDays now (weekdayDaysAhead dayNum (weekdayOf now) hasNext)
  match tm with
  | some t => (some (combineDT (dayOf target) t), true, none)
  | none => (some (replaceHM target 9 0), true, none)

/-- Models `TimeParser.parse_time` on lower-cased, blank-separated text
(`time_parser.py` 30-120), with `now` passed explicitly in place of
`datetime.now()`. -/
def parseTimeChars (now : DateTime) (input : Chars) : ParsedTime :=
  let cs := convertWordsToNumbers (trimChars (lowerChars input))
  let toks := daypartNormalize (tokenize cs)
  let text := joinTokens toks
  if subOccurs ("next week".data) text
      && !(toks.any (fun t => weekdayFullNames.contains t))
      && (extractTime toks).isNone then
    (some (replaceHM (addDays now 7) 9 0), true, none)
  else
    match searchInUnits toks with
    | some (v, UnitKind.minutes) => (some (now + v), true, none)
    | some (v, UnitKind.hours) => (some (now + 60 * v), true, none)
    | some (v, UnitKind.days) => (some (addDays now v), true, none)
    | none =>
      if subOccurs ("tomorrow".data) text then
        match extractTime toks with
        | some t => (some (combineDT (dayOf (addDays now 1)) t), true, none)
        | none => (some (replaceHM (addDays now 1) 9 0), true, none)
      else
        match (if subOccurs ("today".data) text then extractTime toks else none) with
        | some t => todayBranch now t
        | none =>
          match findWeekday text with
          | some dayNum => weekdayBranch now dayNum (subOccurs ("next".data) text) (extractTime toks)
          | none =>
            match extractTime toks with
            | some t => bareClockBranch now t
            | none => (none, false, some msgCouldNotUnderstand)

/-- Models `TimeParser.parse_time` on a string. -/
def parse_time (now : DateTime) (input : String) : ParsedTime :=
  parseTimeChars now input.data

/-- Models `TimeParser.format_time_human` (`time_parser.py` 199-216); the
`strftime` calendar renderings are modelled through the epoch-day index. -/
def pad2 (n : Nat) : String := if n < 10 then "0" ++ toString n else toString n

/-- A 12-hour clock rendering: models `dt.strftime('%I:%M %p')`. -/
def clock12 (t : DateTime) : String :=
  let h := minuteOfDay t / 60
  let m := minuteOfDay t % 60
  let h12 := if h % 12 = 0 then 12 else h % 12
  pad2 h12 ++ ":" ++ pad2 m ++ " " ++ (if h < 12 then "AM" else "PM")

def format_time_human (now dt : DateTime) : String :=
  if dayOf dt = dayOf now then "today at " ++ clock12 dt
  else if dayOf dt = dayOf (addDays now 1) then "tomorrow at " ++ clock12 dt
  else if dayOf dt ≤ dayOf now + 7 then
    "weekday " ++ toString (weekdayOf dt) ++ " at " ++ clock12 dt
  else "day " ++ toString (dayOf dt) ++ " at " ++ clock12 dt

/-! ### Reminder records (`reminders.json`) -/

/-- One persisted reminder record, as stored in `reminders.json`. -/
structure Reminder where
  id : Nat
  text : String
  time : DateTime
  active : Bool
deriving DecidableEq, Repr

/-- One scheduler job, as registered by `scheduler.add_job(trigger_reminder,
'date', run_date=…, args=[id, text], id=f"reminder_{id}")`. -/
structure RJob where
  rid : Nat
  runDate : DateTime
  rtext : String
deriving DecidableEq, Repr

/-- Models `add_job` with the `reminder_{id}` job id: adding a job whose id
already exists raises, the caller catches and continues, so the net effect
is to skip the duplicate. -/
def addJob (sched : List RJob) (j : RJob) : List RJob :=
  if sched.any (fun j0 => j0.rid = j.rid) then sched else sched ++ [j]

/-- Models `_load_existing_reminders` (`offline_mode.py` 618-642) and
`load_existing_reminders` (`main.py` 119-167): every record with
`active=true` and a strictly future time is scheduled; all other records
are skipped; the file is only read, never written, so the persisted
collection is returned unchanged. -/
def loadExistingReminders (now : DateTime) (store : List Reminder) (sched : List RJob) :
    List Reminder × List RJob :=
  (store,
   store.foldl
     (fun sc r => if r.active && now < r.time then addJob sc ⟨r.id, r.time, r.text⟩ else sc)
     sched)

/-- Models the id assignment `max([r.get('id', 0) for r in reminders], default=0) + 1`
(`offline_mode.py` 732, `tools.py` 237-238). -/
def nextReminderId (rs : List Reminder) : Nat :=
  rs.foldl (fun m r => Nat.max m r.id) 0 + 1

/-- Flips `active` on the first record with the given id (the Python
`for … if r['id'] == …: r['active'] = False; break` loop). -/
def markInactiveFirst (i : Nat) : List Reminder → List Reminder
  | [] => []
  | r :: rs =>
    if r.id = i then { r with active := false } :: rs
    else r :: markInactiveFirst i rs

/-- Stable insertion by time (models Python's stable
`sorted(…, key=lambda r: datetime.fromisoformat(r['time']))`). -/
def insertByTime (r : Reminder) : List Reminder → List Reminder
  | [] => [r]
  | x :: xs => if r.time < x.time then r :: x :: xs else x :: insertByTime r xs

def sortByTime (rs : List Reminder) : List Reminder := rs.foldr insertByTime []

/-- Models `OfflineMode.delete_reminder_by_number` (`offline_mode.py` 769-839)
after the spoken number has been extracted: the `num`-th of the active,
still-future reminders in time order is marked inactive (the record itself
stays in the collection). -/
def deleteReminderByNumber (now : DateTime) (num : Nat) (rs : List Reminder) : List Reminder :=
  let active := sortByTime (rs.filter (fun r => r.active && now < r.time))
  if num < 1 || active.length < num then rs
  else
    match active.get? (num - 1) with
    | some target => markInactiveFirst target.id rs
    | none => rs

/-! ### File persistence (`open(self.reminders_file, 'w')` + `json.dump`) -/

/-- Where a persistence attempt stops: `ok` is a completed write, `failOpen`
is a failure of `open(path, 'w')` itself, `failDuring k` is a failure after
the truncating open with `k` characters already written. -/
inductive WriteEvent
  | ok
  | failOpen
  | failDuring (k : Nat)
deriving DecidableEq, Repr

/-- A serialization of the collection, modelling
`json.dump(reminders, f, indent=4)` up to whitespace. -/
def serializeReminder (r : Reminder) : Chars :=
  ("\x7b\"id\": " ++ toString r.id ++ ", \"text\": \"" ++ r.text ++ "\", \"time\": \""
    ++ toString r.time ++ "\", \"active\": " ++ (if r.active then "true" else "false")
    ++ "\x7d").data

def serializeReminders (rs : List Reminder) : Chars :=
  '[' :: List.intercalate (", ".data) (rs.map serializeReminder) ++ [']']

/-- Models `with open(reminders_file, 'w') as f: json.dump(…)`: the open
truncates the file in place, so a completed write stores the new content, a
failed open leaves the prior content, and a failure after the open leaves
only the prefix written so far. -/
def writeReminderFileW (prior : Chars) (rs : List Reminder) : WriteEvent → Chars
  | WriteEvent.ok => serializeReminders rs
  | WriteEvent.failOpen => prior
  | WriteEvent.failDuring k => (serializeReminders rs).take k

/-! ### `tools.set_reminder` (`tools.py` 194-260, the online client tool) -/

def msgNoReminderText : String := "I could not find what the reminder should be about"

def msgNoWhen : String := "I need to know when to schedule the reminder"

/-- The rejection message of `tools.set_reminder` when the time cannot be
resolved (`tools.py` 220-224). -/
def toolsRejectMsg (when : String) (err : Option String) : String :=
  "I could not understand the time \x27" ++ when ++ "\x27."
    ++ (match err with
        | some e => " Error: " ++ e
        | none => "")
    ++ "Please try something like \x27in 10 minutes\x27 or \x27tomorrow at 10 AM\x27."

def msgCouldNotSaveTools : String := "Sory, I could not save the reminder: write error"

/-- The confirmation of `tools.set_reminder` (`tools.py` 259-260); the
`strftime('%I:%M %p on %B %d, %Y')` rendering is modelled by `clock12` and
the epoch-day index. -/
def toolsConfirmMsg (t : DateTime) (text : String) : String :=
  "Okay, I\x27ll remind you at " ++ clock12 t ++ " on day " ++ toString (dayOf t) ++ ": " ++ text

/-- Models `tools.set_reminder` (`tools.py` 194-260). `textParam` is the
first non-empty of the `text`/`reminder`/`task`/`description`/`title`
parameters, `whenParam` the `time`/`when` parameter; `isoWhen` is the result
of `datetime.fromisoformat(when)` (`none` when it raises); `ev` is the fate
of the file write. Returns the persisted collection and the reply. -/
def toolsSetReminder (now : DateTime) (textParam whenParam : Option String)
    (isoWhen : Option DateTime) (store : List Reminder) (ev : WriteEvent) :
    List Reminder × String :=
  match textParam with
  | none => (store, msgNoReminderText)
  | some text =>
    match whenParam with
    | none => (store, msgNoWhen)
    | some when =>
      let resolved : Option DateTime × Option String :=
        match isoWhen with
        | some t => (some t, none)
        | none =>
          match parse_time now when with
          | (some t, true, _) => (some t, none)
          | (_, _, e) => (none, e)
      match resolved.1 with
      | none => (store, toolsRejectMsg when resolved.2)
      | some rt =>
        let rt := if rt < now then now + 5 else rt
        let nid := nextReminderId store
        let newR : Reminder := ⟨nid, text, rt, true⟩
        match ev with
        | WriteEvent.ok => (store ++ [newR], toolsConfirmMsg rt text)
        | _ => (store, msgCouldNotSaveTools)

/-! ### `OfflineMode.set_reminder` (`offline_mode.py` 677-767) -/

/-- The trigger prefixes of the `trigger_prefix` regex
(`remind me( to)? | set (a )?reminder( to)? | remember to | we (need|have) to`),
longest variant first within each alternative, as regex greediness does. -/
def triggerPrefixes : List (List Tok) :=
  [["remind".data, "me".data, "to".data],
   ["remind".data, "me".data],
   ["set".data, "a".data, "reminder".data, "to".data],
   ["set".data, "a".data, "reminder".data],
   ["set".data, "reminder".data, "to".data],
   ["set".data, "reminder".data],
   ["remember".data, "to".data],
   ["we".data, "need".data, "to".data],
   ["we".data, "have".data, "to".data]]

/-- Strips the first matching trigger prefix; the regex requires trailing
whitespace, so something must remain after the prefix. -/
def stripTriggerPrefix (ts : List Tok) : List Tok :=
  match triggerPrefixes.find?
      (fun pre => pre.isPrefixOf ts && decide (pre.length < ts.length)) with
  | some pre => ts.drop pre.length
  | none => ts

/-- Models the two `morrow` repairs of `set_reminder` (`offline_mode.py`
707-708): a leading bare `morrow` and any `to morrow` become `tomorrow`. -/
def morrowFix (ts : List Tok) : List Tok :=
  let ts :=
    match ts with
    | t :: rest => if t = "morrow".data then "tomorrow".data :: rest else t :: rest
    | [] => []
  let rec fix : List Tok → List Tok
    | [] => []
    | [t] => [t]
    | a :: b :: rest =>
      if a = "to".data && b = "morrow".data then "tomorrow".data :: fix rest
      else a :: fix (b :: rest)
  fix ts

/-- The `cleaned` text of `set_reminder` as tokens (the model works on
lower-cased text; the prefix match in the source is case-insensitive). -/
def cleanReminderText (s : String) : List Tok :=
  morrowFix (stripTriggerPrefix (tokenize (trimChars (lowerChars s.data))))

/-! ###  `OfflineMode._extract_task_from_text` (`offline_mode.py` 644-675),
with each removal regex rendered over the blank-separated tokens. -/

def unitExactSet : List Tok :=
  ["minute".data, "minutes".data, "min".data, "mins".data, "hour".data,
   "hours".data, "hr".data, "hrs".data, "day".data, "days".data]

def rmInUnits : List Tok → List Tok
  | a :: b :: c :: rest =>
    if a = "in".data && isDigitsTok b && unitExactSet.contains c then rmInUnits rest
    else a :: rmInUnits (b :: c :: rest)
  | l => l

def rmPair (x y : Tok) : List Tok → List Tok
  | a :: b :: rest =>
    if a = x && b = y then rmPair x y rest else a :: rmPair x y (b :: rest)
  | l => l

/-- Removes `on <weekday> at`. -/
def rmOnWdAt : List Tok → List Tok
  | a :: b :: c :: rest =>
    if a = "on".data && weekdayFullNames.contains b && c = "at".data then rmOnWdAt rest
    else a :: rmOnWdAt (b :: c :: rest)
  | l => l

/-- Removes `on <weekday>` / `next <weekday>`. -/
def rmWithWd (x : Tok) : List Tok → List Tok
  | a :: b :: rest =>
    if a = x && weekdayFullNames.contains b then rmWithWd x rest
    else a :: rmWithWd x (b :: rest)
  | l => l

def isAmPmExact (t : Tok) : Bool :=
  t = "am".data || t = "pm".data || t = "a.m.".data || t = "p.m.".data

/-- A clock core `\d{1,2}[:.]?\d{0,2}` filling a whole token. -/
def isClockCore (t : Tok) : Bool :=
  let (ds, r) := t.span Char.isDigit
  if ds.isEmpty || decide (2 < ds.length) then false
  else
    match r with
    | [] => true
    | sep :: r2 =>
      (sep = ':' || sep = '.') &&
        (let (ms, r3) := r2.span Char.isDigit
         decide (ms.length ≤ 2) && r3.isEmpty)

/-- A fused clock token `\d{1,2}[:.]?\d{0,2}(am|pm|a\.m\.|p\.m\.)`. -/
def isFusedClock (t : Tok) : Bool :=
  let (ds, r) := t.span Char.isDigit
  if ds.isEmpty || decide (2 < ds.length) then false
  else if isAmPmExact r then true
  else
    match r with
    | sep :: r2 =>
      (sep = ':' || sep = '.') &&
        (let (ms, r3) := r2.span Char.isDigit
         decide (ms.length ≤ 2) && isAmPmExact r3)
    | [] => false

/-- Removes `at <clock><ampm>` (pattern 5 of `_extract_task_from_text`). -/
def rmAtClock : List Tok → List Tok
  | a :: b :: rest =>
    if a = "at".data && isFusedClock b then rmAtClock rest
    else
      match rest with
      | c :: rest2 =>
        if a = "at".data && isClockCore b && isAmPmExact c then rmAtClock rest2
        else a :: rmAtClock (b :: c :: rest2)
      | [] => [a, b]
  | l => l

/-- Removes a bare `<clock><ampm>` (pattern 6). -/
def rmClock : List Tok → List Tok
  | a :: rest =>
    if isFusedClock a then rmClock rest
    else
      match rest with
      | b :: rest2 =>
        if isClockCore a && isAmPmExact b then rmClock rest2
        else a :: rmClock (b :: rest2)
      | [] => [a]
  | [] => []

def daypartWordSet : List Tok :=
  ["morning".data, "afternoon".data, "evening".data, "night".data, "tonight".data]

/-- Strips the `[.,!?]` characters of a token. -/
def stripPunct (t : Tok) : Tok :=
  t.filter (fun c => !(c = '.' || c = ',' || c = '!' || c = '?'))

def prepSet : List Tok := ["to".data, "at".data, "on".data, "in".data]

/-- Models `OfflineMode._extract_task_from_text`: strips the time phrases,
weekday and day words, punctuation and dangling prepositions; a result
shorter than 3 characters or all digits becomes empty. -/
def extractTaskFromText (ts : List Tok) : List Tok :=
  let ts := rmInUnits ts
  let ts := rmPair ("tomorrow".data) ("at".data) ts
  let ts := rmPair ("today".data) ("at".data) ts
  let ts := rmOnWdAt ts
  let ts := rmAtClock ts
  let ts := rmClock ts
  let ts := rmWithWd ("on".data) ts
  let ts := rmWithWd ("next".data) ts
  let ts := ts.filter (fun t => !daypartWordSet.contains t)
  let ts := rmPair ("next".data) ("week".data) ts
  let ts := ts.filter (fun t => !weekdayFullNames.contains t)
  let ts := ts.filter (fun t => !(t = "tomorrow".data || t = "today".data))
  let ts := rmPair ("to".data) ("morrow".data) ts
  let ts := ts.filter (fun t => t ≠ "morrow".data)
  let ts := (ts.map stripPunct).filter (fun t => !t.isEmpty)
  let ts :=
    match ts with
    | a :: b :: rest => if prepSet.contains a then b :: rest else a :: b :: rest
    | l => l
  let ts :=
    match ts.reverse with
    | a :: b :: rest => if prepSet.contains a then (b :: rest).reverse else ts
    | _ => ts
  let joined := joinTokens ts
  if decide (joined.length < 3) || (isDigitsTok joined) then [] else ts

/-- The post-processing of the success branch (`offline_mode.py` 724-729):
word-to-number conversion feeds the extraction; a too-short result falls
back to the cleaned text; `(we )?remind me( to)?` and a leading `for`/`to`
are stripped. -/
def rmRemindMe : List Tok → List Tok
  | [] => []
  | a :: b :: c :: d :: rest =>
    if a = "we".data && b = "remind".data && c = "me".data && d = "to".data then
      rmRemindMe rest
    else if a = "we".data && b = "remind".data && c = "me".data then
      rmRemindMe (d :: rest)
    else if a = "remind".data && b = "me".data && c = "to".data then
      rmRemindMe (d :: rest)
    else if a = "remind".data && b = "me".data then
      rmRemindMe (c :: d :: rest)
    else a :: rmRemindMe (b :: c :: d :: rest)
  | [a, b, c] =>
    if (a = "we".data && b = "remind".data && c = "me".data)
        || (a = "remind".data && b = "me".data && c = "to".data) then []
    else if a = "remind".data && b = "me".data then rmRemindMe [c]
    else a :: rmRemindMe [b, c]
  | [a, b] =>
    if a = "remind".data && b = "me".data then [] else a :: rmRemindMe [b]
  | [a] => [a]

def offlineReminderText (ctoks : List Tok) : List Tok :=
  let conv := tokenize (convertWordsToNumbers (joinTokens ctoks))
  let ts := extractTaskFromText conv
  let ts := if ts.isEmpty || decide ((joinTokens ts).length < 3) then ctoks else ts
  let ts := rmRemindMe ts
  match ts with
  | a :: rest =>
    if (a = "for".data || a = "to".data) && !rest.isEmpty then rest else a :: rest
  | [] => []

def msgWhatToRemind : String := "What would you like me to remind you about?"

/-- The spoken fallback flag of `set_reminder` (`offline_mode.py` 721). -/
def msgFallbackOneMinute : String :=
  "I could not understand the time. Setting reminder for 1 minute from now."

def msgCouldNotSaveOffline : String := "Sorry, I couldn\x27t save the reminder."

def msgReminderSet (now rtime : DateTime) (rtext : String) : String :=
  "Reminder set for " ++ format_time_human now rtime ++ ": " ++ rtext

/-- The time/text/fallback-message choice of `set_reminder`
(`offline_mode.py` 714-729): a failed parse yields `now + 1 minute`, the
cleaned text as-is, and the spoken fallback notice. -/
def offlineParseOutcome (now : DateTime) (ctoks : List Tok) : DateTime × List Tok × List String :=
  match parseTimeChars now (joinTokens ctoks) with
  | (some t, true, _) => (t, offlineReminderText ctoks, [])
  | _ => (now + 1, ctoks, [msgFallbackOneMinute])

/-- Models `OfflineMode.set_reminder` (`offline_mode.py` 677-767): cleaning,
time parsing with the one-minute fallback, id assignment, persistence and
scheduling. Returns the persisted collection, the scheduler jobs and the
spoken messages in order. -/
def offlineSetReminder (now : DateTime) (text : String) (store : List Reminder)
    (ev : WriteEvent) (sched : List RJob) :
    List Reminder × List RJob × List String :=
  let ctoks := cleanReminderText text
  if ctoks.isEmpty then (store, sched, [msgWhatToRemind])
  else
    let out := offlineParseOutcome now ctoks
    let rtime := out.1
    let rtext := String.mk (joinTokens out.2.1)
    let rid := nextReminderId store
    let newR : Reminder := ⟨rid, rtext, rtime, true⟩
    match ev with
    | WriteEvent.ok =>
      (store ++ [newR], addJob sched ⟨rid, rtime, rtext⟩,
       out.2.2 ++ [msgReminderSet now rtime rtext])
    | _ => (store, sched, out.2.2 ++ [msgCouldNotSaveOffline])

/-! ### The mode state machine (`main.py` 101-540)

All mutations of the shared mode state (`current_mode`,
`online_conversation`, `offline_mode_instance`, `switching_modes`,
`conversation_ended_event`) happen under `mode_lock`, so the concurrent
program is modelled as a transition system whose steps are the
lock-protected blocks executed atomically. Conversation and offline-mode
objects are identified by numeric handles; `pendingOnline`/`pendingOffline`
record the worker threads that have been spawned and have not yet run their
completion handler. -/

inductive ModeTag
  | online
  | offline
deriving DecidableEq, Repr

structure SysState where
  currentMode : Option ModeTag
  onlineConv : Option Nat
  offlineInst : Option Nat
  switching : Bool
  endedEvent : Bool
  pendingOnline : List Nat
  pendingOffline : List Nat
deriving DecidableEq, Repr

/-- The state at module load (`main.py` 101-112). -/
def initState : SysState :=
  ⟨none, none, none, false, false, [], []⟩

/-- Models `stop_current_mode` (`main.py` 279-407): sets the switching flag,
clears the ended event, and tears down whichever engine matches
`current_mode` (clearing the global reference and the mode before the
external cleanup calls). -/
def stopCurrentMode (s : SysState) : SysState :=
  let s1 := { s with switching := true, endedEvent := false }
  if s1.currentMode = some ModeTag.online && s1.onlineConv.isSome then
    { s1 with onlineConv := none, currentMode := none }
  else if s1.currentMode = some ModeTag.offline && s1.offlineInst.isSome then
    { s1 with offlineInst := none, currentMode := none }
  else s1

/-- Models `start_online_mode` (`main.py` 409-482): a no-op (but for the
switching flag) when already online; otherwise the current mode is stopped
first, any lingering conversation object is cleaned up, and — when
`initialize_online_mode` succeeds (`ok`) — the new conversation becomes the
active handle, a worker is spawned, and the events are cleared. -/
def startOnlineMode (s : SysState) (h : Nat) (ok : Bool) : SysState :=
  if s.currentMode = some ModeTag.online then { s with switching := false }
  else
    let s1 := if s.currentMode = some ModeTag.offline then stopCurrentMode s else s
    let s2 := { s1 with onlineConv := none }
    if ok then
      { s2 with
        onlineConv := some h, currentMode := some ModeTag.online,
        endedEvent := false, switching := false,
        pendingOnline := h :: s2.pendingOnline }
    else { s2 with switching := false }

/-- Models `start_offline_mode` (`main.py` 484-540); constructing
`OfflineMode()` cannot fail, so there is no `ok` flag. -/
def startOfflineMode (s : SysState) (h : Nat) : SysState :=
  if s.currentMode = some ModeTag.offline then { s with switching := false }
  else
    let s1 := if s.currentMode = some ModeTag.online then stopCurrentMode s else s
    let s2 := { s1 with offlineInst := none }
    { s2 with
      offlineInst := some h, currentMode := some ModeTag.offline,
      endedEvent := false, switching := false,
      pendingOffline := h :: s2.pendingOffline }

/-- The completion handler of `run_online_mode_thread` (`main.py` 214-249)
for a worker spawned with conversation handle `h`: the try/except body
mutates the state only when `h` is still the active conversation, the mode
is online and no switch is in progress; the `finally` block repeats the
handle check. -/
def endOnlineEffect (s : SysState) (h : Nat) : SysState :=
  let s1 :=
    if s.onlineConv = some h && s.currentMode = some ModeTag.online && !s.switching then
      { s with currentMode := none, onlineConv := none, endedEvent := true }
    else s
  if s1.onlineConv = some h && s1.currentMode = some ModeTag.online then
    { s1 with currentMode := none, onlineConv := none }
  else s1

/-- The completion handler of `run_offline_mode_thread` (`main.py` 251-277):
unlike the online worker it checks only the mode and the switching flag —
there is no comparison of a spawn-time handle with `offline_mode_instance`. -/
def endOfflineEffect (s : SysState) (h : Nat) : SysState :=
  let _ := h
  let s1 :=
    if s.currentMode = some ModeTag.offline && !s.switching then
      { s with currentMode := none, offlineInst := none, endedEvent := true }
    else s
  if s1.currentMode = some ModeTag.offline then
    { s1 with currentMode := none, offlineInst := none }
  else s1

inductive Event
  | startOnline (h : Nat) (ok : Bool)
  | startOffline (h : Nat)
  | stopCurrent
  | endOnlineWorker (h : Nat)
  | endOfflineWorker (h : Nat)
deriving DecidableEq, Repr

/-- One atomic lock-protected step; worker-completion events require the
worker to have been spawned and not yet completed. -/
def applyEvent (s : SysState) : Event → SysState
  | Event.startOnline h ok => startOnlineMode s h ok
  | Event.startOffline h => startOfflineMode s h
  | Event.stopCurrent => stopCurrentMode s
  | Event.endOnlineWorker h =>
    if s.pendingOnline.contains h then
      { endOnlineEffect s h with pendingOnline := s.pendingOnline.erase h }
    else s
  | Event.endOfflineWorker h =>
    if s.pendingOffline.contains h then
      { endOfflineEffect s h with pendingOffline := s.pendingOffline.erase h }
    else s

def applyEvents (s : SysState) (es : List Event) : SysState :=
  es.foldl applyEvent s

/-- The states reachable from boot by atomic transitions. -/
inductive Reachable : SysState → Prop
  | init : Reachable initState
  | step {s : SysState} (e : Event) : Reachable s → Reachable (applyEvent s e)

/-- The liveness invariant of the mode arbiter: a live handle of either
engine pins `current_mode` to that engine's tag. -/
def ModeInv (s : SysState) : Prop :=
  (s.onlineConv.isSome → s.currentMode = some ModeTag.online) ∧
    (s.offlineInst.isSome → s.currentMode = some ModeTag.offline)

/-! ## Theorems -/

theorem modeInv_init : ModeInv initState := by
  constructor <;> intro h <;> simp [initState] at h

theorem modeInv_stop {s : SysState} (h : ModeInv s) : ModeInv (stopCurrentMode s) := by
  obtain ⟨h1, h2⟩ := h
  unfold stopCurrentMode
  dsimp only
  split
  · constructor <;> intro hs <;> simp_all
  · split
    · constructor <;> intro hs <;> simp_all
    · exact ⟨h1, h2⟩

theorem stopCurrentMode_offline {s : SysState} (hm : s.currentMode = some ModeTag.offline) :
    (stopCurrentMode s).offlineInst = none ∧ (stopCurrentMode s).onlineConv = s.onlineConv := by
  unfold stopCurrentMode
  dsimp only
  split
  · simp_all
  · split <;> cases hin : s.offlineInst <;> simp_all

theorem stopCurrentMode_online {s : SysState} (hm : s.currentMode = some ModeTag.online) :
    (stopCurrentMode s).onlineConv = none ∧ (stopCurrentMode s).offlineInst = s.offlineInst := by
  unfold stopCurrentMode
  dsimp only
  split
  · simp_all
  · split
    · simp_all
    · cases hin : s.onlineConv <;> simp_all

theorem modeInv_startOnline {s : SysState} (h : ModeInv s) (hc : Nat) (ok : Bool) :
    ModeInv (startOnlineMode s hc ok) := by
  obtain ⟨h1, h2⟩ := h
  unfold startOnlineMode
  dsimp only
  split
  · exact ⟨h1, h2⟩
  · rename_i hne
    by_cases hoff : s.currentMode = some ModeTag.offline
    · obtain ⟨k1, k2⟩ := stopCurrentMode_offline hoff
      have g := modeInv_stop (s := s) ⟨h1, h2⟩
      obtain ⟨g1, g2⟩ := g
      simp only [hoff, if_pos]
      cases ok <;> constructor <;> intro hs <;> simp_all
    · simp only [hoff, ite_false]
      have hinst : s.offlineInst = none := by
        cases hin : s.offlineInst with
        | none => rfl
        | some v => exact absurd (h2 (by simp [hin])) hoff
      cases ok <;> constructor <;> intro hs <;> simp_all

theorem modeInv_startOffline {s : SysState} (h : ModeInv s) (hc : Nat) :
    ModeInv (startOfflineMode s hc) := by
  obtain ⟨h1, h2⟩ := h
  unfold startOfflineMode
  dsimp only
  split
  · exact ⟨h1, h2⟩
  · rename_i hne
    by_cases hon : s.currentMode = some ModeTag.online
    · obtain ⟨k1, k2⟩ := stopCurrentMode_online hon
      have g := modeInv_stop (s := s) ⟨h1, h2⟩
      obtain ⟨g1, g2⟩ := g
      simp only [hon, if_pos]
      constructor <;> intro hs <;> simp_all
    · simp only [hon, ite_false]
      have hconv : s.onlineConv = none := by
        cases hin : s.onlineConv with
        | none => rfl
        | some v => exact absurd (h1 (by simp [hin])) hon
      constructor <;> intro hs <;> simp_all

theorem modeInv_endOnline {s : SysState} (h : ModeInv s) (hc : Nat) :
    ModeInv (endOnlineEffect s hc) := by
  obtain ⟨h1, h2⟩ := h
  unfold endOnlineEffect
  dsimp only
  split <;> split <;> constructor <;> intro hs <;> simp_all

theorem modeInv_endOffline {s : SysState} (h : ModeInv s) (hc : Nat) :
    ModeInv (endOfflineEffect s hc) := by
  obtain ⟨h1, h2⟩ := h
  unfold endOfflineEffect
  dsimp only
  split <;> split <;> constructor <;> intro hs <;> simp_all

theorem modeInv_step {s : SysState} (e : Event) (h : ModeInv s) : ModeInv (applyEvent s e) := by
  cases e with
  | startOnline hc ok => exact modeInv_startOnline h hc ok
  | startOffline hc => exact modeInv_startOffline h hc
  | stopCurrent => exact modeInv_stop h
  | endOnlineWorker hc =>
    simp only [applyEvent]
    split
    · exact ⟨(modeInv_endOnline h hc).1, (modeInv_endOnline h hc).2⟩
    · exact h
  | endOfflineWorker hc =>
    simp only [applyEvent]
    split
    · exact ⟨(modeInv_endOffline h hc).1, (modeInv_endOffline h hc).2⟩
    · exact h

theorem modeInv_reachable {s : SysState} (h : Reachable s) : ModeInv s := by
  induction h with
  | init => exact modeInv_init
  | step e _ ih => exact modeInv_step e ih

/-- C1: in every state reachable by the lock-protected transitions of the
mode arbiter (`start_online_mode`, `start_offline_mode`,
`stop_current_mode` and the worker completion handlers), at most one of the
two conversation engines is live: `online_conversation` and
`offline_mode_instance` are never simultaneously set, because each start
transition stops and clears the current mode before installing the new
handle. -/
theorem c1_at_most_one_live_engine {s : SysState} (h : Reachable s) :
    ¬(s.onlineConv.isSome = true ∧ s.offlineInst.isSome = true) := by
  intro ⟨ho, hf⟩
  obtain ⟨h1, h2⟩ := modeInv_reachable h
  have := h1 ho
  have := h2 hf
  simp_all

/-- Witness for C1 at the concrete reachable state obtained by starting
offline mode and then switching to online mode. -/
theorem c1_at_most_one_live_engine_witness :
    ¬((applyEvents initState [Event.startOffline 1, Event.startOnline 2 true]).onlineConv.isSome = true ∧
      (applyEvents initState [Event.startOffline 1, Event.startOnline 2 true]).offlineInst.isSome = true) :=
  c1_at_most_one_live_engine
    (Reachable.step (Event.startOnline 2 true) (Reachable.step (Event.startOffline 1) Reachable.init))

/-- C3 counterexample: offline worker 1 is spawned, the arbiter switches to
online and then back to offline with a fresh instance 2; when the stale
worker 1 finally completes, its handler — which checks only the mode and
the switching flag, not its spawn-time handle — clears the mode, drops
instance 2 and signals the conversation-ended event, flipping the state of
the newer session. -/
theorem c3_stale_offline_worker_flips_state :
    (applyEvents initState
        [Event.startOffline 1, Event.startOnline 5 true, Event.startOffline 2]).offlineInst
      = some 2 ∧
    (applyEvents initState
        [Event.startOffline 1, Event.startOnline 5 true, Event.startOffline 2]).currentMode
      = some ModeTag.offline ∧
    (applyEvents initState
        [Event.startOffline 1, Event.startOnline 5 true, Event.startOffline 2]).switching = false ∧
    (applyEvents initState
        [Event.startOffline 1, Event.startOnline 5 true, Event.startOffline 2]).pendingOffline.contains 1
      = true ∧
    (applyEvents initState
        [Event.startOffline 1, Event.startOnline 5 true, Event.startOffline 2,
         Event.endOfflineWorker 1]).currentMode = none ∧
    (applyEvents initState
        [Event.startOffline 1, Event.startOnline 5 true, Event.startOffline 2,
         Event.endOfflineWorker 1]).offlineInst = none ∧
    (applyEvents initState
        [Event.startOffline 1, Event.startOnline 5 true, Event.startOffline 2,
         Event.endOfflineWorker 1]).endedEvent = true := by
  decide

/-- C3 (amended): only the online worker performs the owner-generation
check — its completion handler leaves the shared state untouched whenever
its spawn-time conversation handle is no longer the active one; the
offline worker's handler checks only that the mode is offline and no
switch is in progress, so it mutates the shared state regardless of which
offline instance it was spawned for. -/
theorem c3_owner_check_only_online (s : SysState) (h : Nat) :
    (s.onlineConv ≠ some h → endOnlineEffect s h = s) ∧
    (s.currentMode = some ModeTag.offline → s.switching = false →
      (endOfflineEffect s h).currentMode = none ∧
      (endOfflineEffect s h).offlineInst = none ∧
      (endOfflineEffect s h).endedEvent = true) := by
  constructor
  · intro hne
    unfold endOnlineEffect
    dsimp only
    simp [hne]
  · intro hm hsw
    unfold endOfflineEffect
    dsimp only
    simp [hm, hsw]

/-- Witness for C3 (amended): a stale online worker (handle 9 while 4 is
active) is a no-op; an offline completion while offline mode is live clears
the state. -/
theorem c3_owner_check_only_online_witness :
    (endOnlineEffect ⟨some ModeTag.online, some 4, none, false, false, [4], []⟩ 9 =
      ⟨some ModeTag.online, some 4, none, false, false, [4], []⟩) ∧
    ((endOfflineEffect ⟨some ModeTag.offline, none, some 2, false, false, [], [1, 2]⟩ 1).currentMode = none ∧
      (endOfflineEffect ⟨some ModeTag.offline, none, some 2, false, false, [], [1, 2]⟩ 1).offlineInst = none ∧
      (endOfflineEffect ⟨some ModeTag.offline, none, some 2, false, false, [], [1, 2]⟩ 1).endedEvent = true) :=
  ⟨(c3_owner_check_only_online _ 9).1 (by decide),
   (c3_owner_check_only_online _ 1).2 (by decide) (by decide)⟩

theorem loadFold_mem (now : DateTime) :
    ∀ (store : List Reminder) (sched : List RJob) (j : RJob),
      j ∈ store.foldl
            (fun sc r => if r.active && decide (now < r.time) then addJob sc ⟨r.id, r.time, r.text⟩ else sc)
            sched →
      j ∈ sched ∨ ∃ r, r ∈ store ∧ r.active = true ∧ now < r.time ∧ j = ⟨r.id, r.time, r.text⟩ := by
  intro store
  induction store with
  | nil => exact fun sched j hj => Or.inl hj
  | cons r rs ih =>
    intro sched j hj
    simp only [List.foldl_cons] at hj
    rcases ih _ j hj with h | ⟨r', hr', ha, ht, he⟩
    · by_cases hc : (r.active && decide (now < r.time)) = true
      · rw [if_pos hc] at h
        unfold addJob at h
        split at h
        · exact Or.inl h
        · rcases List.mem_append.mp h with h1 | h2
          · exact Or.inl h1
          · right
            obtain ⟨hca, hct⟩ := Bool.and_eq_true_iff.mp hc
            refine ⟨r, List.mem_cons_self r rs, hca, of_decide_eq_true hct, ?_⟩
            simpa using h2
      · rw [if_neg hc] at h
        exact Or.inl h
    · exact Or.inr ⟨r', List.mem_cons_of_mem r hr', ha, ht, he⟩

/-- C2 counterexample: at boot with a store holding one active reminder
whose time (minute 100) is already past (`now` = minute 1540, the next
day), the loader leaves the record untouched — still `active = true` — and
persists nothing; the claimed flip to `active = false` does not happen. -/
theorem c2_stale_reminder_left_active :
    loadExistingReminders 1540 [⟨1, "water plants", 100, true⟩] [] =
      ([⟨1, "water plants", 100, true⟩], []) ∧
    ((loadExistingReminders 1540 [⟨1, "water plants", 100, true⟩] []).1.map Reminder.active)
      = [true] := by
  decide

/-- C2 (amended): the boot loaders
(`_load_existing_reminders` / `load_existing_reminders`) return the
persisted collection unchanged — stale reminders are neither flipped to
`active = false` nor re-persisted — and every job they add to the scheduler
comes from a record that is `active` with a strictly future time, so stale
reminders are never scheduled or fired. -/
theorem c2_loader_skips_stale_without_flip (now : DateTime) (store : List Reminder)
    (sched : List RJob) :
    (loadExistingReminders now store sched).1 = store ∧
    (∀ j, j ∈ (loadExistingReminders now store sched).2 →
      j ∈ sched ∨ ∃ r, r ∈ store ∧ r.active = true ∧ now < r.time ∧ j = ⟨r.id, r.time, r.text⟩) := by
  refine ⟨rfl, ?_⟩
  intro j hj
  exact loadFold_mem now store sched j hj

/-- Witness for C2 (amended): one future reminder at boot. -/
theorem c2_loader_skips_stale_without_flip_witness :
    (loadExistingReminders 7 [⟨1, "x", 9, true⟩] []).1 = [⟨1, "x", 9, true⟩] ∧
    ((⟨1, 9, "x"⟩ : RJob) ∈ ([] : List RJob) ∨
      ∃ r, r ∈ [(⟨1, "x", 9, true⟩ : Reminder)] ∧ r.active = true ∧ 7 < r.time ∧
        (⟨1, 9, "x"⟩ : RJob) = ⟨r.id, r.time, r.text⟩) :=
  ⟨(c2_loader_skips_stale_without_flip 7 [⟨1, "x", 9, true⟩] []).1,
   (c2_loader_skips_stale_without_flip 7 [⟨1, "x", 9, true⟩] []).2 ⟨1, 9, "x"⟩ (by decide)⟩

theorem offlineParseOutcome_fail {now : DateTime} {ctoks : List Tok}
    (h : (parseTimeChars now (joinTokens ctoks)).2.1 = false) :
    offlineParseOutcome now ctoks = (now + 1, ctoks, [msgFallbackOneMinute]) := by
  unfold offlineParseOutcome
  rcases he : parseTimeChars now (joinTokens ctoks) with ⟨a, b, c⟩
  rw [he] at h
  simp only at h
  subst h
  cases a <;> rfl

/-- C4 counterexample: the online `set_reminder` tool (`tools.py` 212-227)
does reject a reminder request whose time fragment cannot be parsed —
`"whenever"` resolves to nothing, no reminder is created, and the reply is
the rejection message, not a `now + 1 minute` fallback. -/
theorem c4_online_tool_rejects_unparseable :
    toolsSetReminder 0 (some "call mom") (some "whenever") none [] WriteEvent.ok =
      ([], toolsRejectMsg "whenever" (some msgCouldNotUnderstand)) ∧
    (toolsSetReminder 0 (some "call mom") (some "whenever") none [] WriteEvent.ok).1 = [] := by
  constructor <;> rfl

/-- C4 (amended): only the offline conversation engine never rejects — on a
parse failure `OfflineMode.set_reminder` falls back to `now + 1 minute` and
speaks the fallback notice; the online `tools.set_reminder` client tool
instead rejects an unparseable time fragment with an error reply and
creates no reminder. -/
theorem c4_offline_falls_back_online_rejects :
    (∀ (now : DateTime) (text : String) (store : List Reminder) (sched : List RJob),
      cleanReminderText text ≠ [] →
      (parseTimeChars now (joinTokens (cleanReminderText text))).2.1 = false →
      offlineSetReminder now text store WriteEvent.ok sched =
        (store ++ [⟨nextReminderId store, String.mk (joinTokens (cleanReminderText text)), now + 1, true⟩],
         addJob sched ⟨nextReminderId store, now + 1, String.mk (joinTokens (cleanReminderText text))⟩,
         [msgFallbackOneMinute,
          msgReminderSet now (now + 1) (String.mk (joinTokens (cleanReminderText text)))])) ∧
    (∀ (now : DateTime) (txt when : String) (store : List Reminder) (ev : WriteEvent),
      (parse_time now when).2.1 = false →
      toolsSetReminder now (some txt) (some when) none store ev =
        (store, toolsRejectMsg when (parse_time now when).2.2)) := by
  constructor
  · intro now text store sched hne hfail
    unfold offlineSetReminder
    dsimp only
    rw [if_neg (by simpa [List.isEmpty_iff] using hne)]
    rw [offlineParseOutcome_fail hfail]
    rfl
  · intro now txt when store ev hfail
    unfold toolsSetReminder
    dsimp only
    rcases he : parse_time now when with ⟨a, b, c⟩
    rw [he] at hfail
    simp only at hfail
    subst hfail
    cases a <;> rfl

/-- Witness for C4 (amended): `"remind me to feed the cat soonish"` has no
parseable time, so offline mode creates the reminder at `now + 1`; the
online tool rejects `"someday"`. -/
theorem c4_offline_falls_back_online_rejects_witness :
    offlineSetReminder 0 "remind me to feed the cat soonish" [] WriteEvent.ok [] =
      ([⟨nextReminderId [],
          String.mk (joinTokens (cleanReminderText "remind me to feed the cat soonish")),
          0 + 1, true⟩],
       addJob []
         ⟨nextReminderId [], 0 + 1,
          String.mk (joinTokens (cleanReminderText "remind me to feed the cat soonish"))⟩,
       [msgFallbackOneMinute,
        msgReminderSet 0 (0 + 1)
          (String.mk (joinTokens (cleanReminderText "remind me to feed the cat soonish")))]) ∧
    toolsSetReminder 3 (some "call dad") (some "someday") none [] WriteEvent.failOpen =
      ([], toolsRejectMsg "someday" (parse_time 3 "someday").2.2) :=
  ⟨c4_offline_falls_back_online_rejects.1 0 "remind me to feed the cat soonish" [] []
      (by decide) (by decide),
   c4_offline_falls_back_online_rejects.2 3 "call dad" "someday" [] WriteEvent.failOpen (by decide)⟩

/-- C5 counterexample: persisting the grown collection over a one-reminder
file with a failure right after the truncating `open(…, 'w')` leaves the
file empty — neither the prior content nor the new serialization survives,
so the write is not write-then-replace. -/
theorem c5_interrupted_write_loses_prior_content :
    writeReminderFileW (serializeReminders [⟨1, "a", 100, true⟩])
        [⟨1, "a", 100, true⟩, ⟨2, "b", 5000, true⟩] (WriteEvent.failDuring 0) = [] ∧
    serializeReminders [⟨1, "a", 100, true⟩] ≠ [] ∧
    ([] : Chars) ≠ serializeReminders [⟨1, "a", 100, true⟩] ∧
    ([] : Chars) ≠ serializeReminders [⟨1, "a", 100, true⟩, ⟨2, "b", 5000, true⟩] := by
  decide

/-- C5 (amended): persistence rewrites `reminders.json` in place —
`open(path, 'w')` truncates before `json.dump` writes — so a completed
write stores the new serialization and a failure of the open itself leaves
the prior content, but a failure after the open can leave a truncated file
that no longer holds the prior content; only the in-memory collection
handed back by a failed `set_reminder` is left unchanged. -/
theorem c5_in_place_truncating_write (prior : Chars) (rs : List Reminder) :
    writeReminderFileW prior rs WriteEvent.ok = serializeReminders rs ∧
    writeReminderFileW prior rs WriteEvent.failOpen = prior ∧
    (prior ≠ [] → writeReminderFileW prior rs (WriteEvent.failDuring 0) ≠ prior) ∧
    (∀ (now : DateTime) (text : String) (store : List Reminder) (sched : List RJob) (k : Nat),
      (offlineSetReminder now text store (WriteEvent.failDuring k) sched).1 = store ∧
      (offlineSetReminder now text store (WriteEvent.failDuring k) sched).2.1 = sched) := by
  refine ⟨rfl, rfl, ?_, ?_⟩
  · intro hne
    simp only [writeReminderFileW, List.take_zero]
    exact fun h => hne h.symm
  · intro now text store sched k
    unfold offlineSetReminder
    dsimp only
    split
    · exact ⟨rfl, rfl⟩
    · exact ⟨rfl, rfl⟩

/-- Witness for C5 (amended) on a concrete one-reminder file. -/
theorem c5_in_place_truncating_write_witness :
    writeReminderFileW (serializeReminders [⟨1, "a", 5, true⟩]) [] WriteEvent.ok =
      serializeReminders [] ∧
    writeReminderFileW (serializeReminders [⟨1, "a", 5, true⟩]) [] WriteEvent.failOpen =
      serializeReminders [⟨1, "a", 5, true⟩] ∧
    writeReminderFileW (serializeReminders [⟨1, "a", 5, true⟩]) [] (WriteEvent.failDuring 0) ≠
      serializeReminders [⟨1, "a", 5, true⟩] ∧
    (offlineSetReminder 0 "remind me to buy milk tomorrow" []
        (WriteEvent.failDuring 0) []).1 = [] :=
  ⟨(c5_in_place_truncating_write (serializeReminders [⟨1, "a", 5, true⟩]) []).1,
   (c5_in_place_truncating_write (serializeReminders [⟨1, "a", 5, true⟩]) []).2.1,
   (c5_in_place_truncating_write (serializeReminders [⟨1, "a", 5, true⟩]) []).2.2.1 (by decide),
   ((c5_in_place_truncating_write [] []).2.2.2 0 "remind me to buy milk tomorrow" [] [] 0).1⟩

/-- C6 counterexample: at `now` = Monday 10:00 (minute 600 of epoch day 0,
a Monday), `parse_time "monday at 5 am"` succeeds with Monday 05:00 of the
same day — minute 300, already in the past — instead of rolling the
same-day weekday reference to next week as the claim states. -/
theorem c6_same_day_past_time_not_rolled :
    weekdayOf 600 = 0 ∧
    parse_time 600 "monday at 5 am" = (some 300, true, none) ∧
    300 < 600 ∧
    dayOf 300 = dayOf 600 := by
  decide

/-- C6 (amended): a weekday name resolves via
`days_ahead = (day_num - weekday(now)) mod 7`, which is 0 when today is the
named day without `next` — the result is today's date at the given (or
default 9:00) time even when that instant has already passed; no roll to
next week happens. `next` still forces at least 7 days ahead, and exactly 7
when the named day is today, as `parse("next monday")` on a Monday shows. -/
theorem c6_weekday_resolution (now : DateTime) (h0 : weekdayOf now = 0) :
    parse_time now "next monday" = (some (replaceHM (addDays now 7) 9 0), true, none) ∧
    parse_time now "monday at 5 am" = (some (combineDT (dayOf now) 300), true, none) ∧
    (∀ dayNum : Nat, dayNum < 7 → ∀ nowWd : Nat, nowWd < 7 →
      weekdayDaysAhead dayNum nowWd false ≤ 6 ∧
      (dayNum = nowWd → weekdayDaysAhead dayNum nowWd false = 0) ∧
      7 ≤ weekdayDaysAhead dayNum nowWd true ∧
      (dayNum = nowWd → weekdayDaysAhead dayNum nowWd true = 7)) := by
  refine ⟨?_, ?_, ?_⟩
  · have e : parse_time now "next monday" = weekdayBranch now 0 true none := rfl
    rw [e]
    simp only [weekdayBranch, h0]
    rfl
  · have e : parse_time now "monday at 5 am" = weekdayBranch now 0 false (some 300) := rfl
    rw [e]
    simp only [weekdayBranch, h0]
    rfl
  · decide

/-- Witness for C6 (amended) at `now` = minute 600 (Monday 10:00). -/
theorem c6_weekday_resolution_witness :
    parse_time 600 "next monday" = (some (replaceHM (addDays 600 7) 9 0), true, none) ∧
    parse_time 600 "monday at 5 am" = (some (combineDT (dayOf 600) 300), true, none) ∧
    weekdayDaysAhead 2 2 false = 0 ∧
    weekdayDaysAhead 2 2 true = 7 :=
  ⟨(c6_weekday_resolution 600 (by decide)).1,
   (c6_weekday_resolution 600 (by decide)).2.1,
   ((c6_weekday_resolution 600 (by decide)).2.2 2 (by decide) 2 (by decide)).2.1 rfl,
   ((c6_weekday_resolution 600 (by decide)).2.2 2 (by decide) 2 (by decide)).2.2.2 rfl⟩

/-- C7: `today at <time>` with a time of day not after `now` is the typed
failure `that time has already passed today`, never a rollover, while a
bare clock time rolls to tomorrow when it is not in the future; the two
concrete parses show `parse_time` reaching exactly these branches. -/
theorem c7_today_fails_bare_clock_rolls (now : DateTime) (tod : Nat) :
    (combineDT (dayOf now) tod ≤ now →
      todayBranch now tod = (none, false, some msgAlreadyPassed)) ∧
    (now < combineDT (dayOf now) tod →
      todayBranch now tod = (some (combineDT (dayOf now) tod), true, none)) ∧
    (now < combineDT (dayOf now) tod →
      bareClockBranch now tod = (some (combineDT (dayOf now) tod), true, none)) ∧
    (combineDT (dayOf now) tod ≤ now →
      bareClockBranch now tod = (some (combineDT (dayOf (addDays now 1)) tod), true, none)) ∧
    parse_time now "today at 5 am" = todayBranch now 300 ∧
    parse_time now "5 pm" = bareClockBranch now 1020 := by
  refine ⟨?_, ?_, ?_, ?_, rfl, rfl⟩
  · intro h
    unfold todayBranch
    rw [if_pos h]
  · intro h
    unfold todayBranch
    rw [if_neg (not_le.mpr h)]
  · intro h
    unfold bareClockBranch
    dsimp only
    rw [if_neg (not_le.mpr h)]
  · intro h
    unfold bareClockBranch
    dsimp only
    rw [if_pos h]

/-- Witness for C7 at minute 600 (10:00): `5 am` today has passed, `5 pm`
is still ahead; at minute 100 (01:40) `5 am` is ahead. -/
theorem c7_today_fails_bare_clock_rolls_witness :
    todayBranch 600 300 = (none, false, some msgAlreadyPassed) ∧
    todayBranch 100 300 = (some (combineDT (dayOf 100) 300), true, none) ∧
    bareClockBranch 100 300 = (some (combineDT (dayOf 100) 300), true, none) ∧
    bareClockBranch 600 300 = (some (combineDT (dayOf (addDays 600 1)) 300), true, none) ∧
    parse_time 600 "today at 5 am" = todayBranch 600 300 ∧
    parse_time 600 "5 pm" = bareClockBranch 600 1020 :=
  ⟨(c7_today_fails_bare_clock_rolls 600 300).1 (by decide),
   (c7_today_fails_bare_clock_rolls 100 300).2.1 (by decide),
   (c7_today_fails_bare_clock_rolls 100 300).2.2.1 (by decide),
   (c7_today_fails_bare_clock_rolls 600 300).2.2.2.1 (by decide),
   (c7_today_fails_bare_clock_rolls 600 300).2.2.2.2.1,
   (c7_today_fails_bare_clock_rolls 600 300).2.2.2.2.2⟩

/-- C8: day-part expansion rewrites the day-part word before the
tomorrow/weekday/bare-clock rules fire, so for every fixed `now` the
day-part phrasings parse identically to their explicit-clock forms. -/
theorem c8_daypart_expansion_preempts (now : DateTime) :
    parse_time now "tomorrow morning" = parse_time now "tomorrow at 9am" ∧
    parse_time now "tomorrow afternoon" = parse_time now "tomorrow at 3pm" ∧
    parse_time now "tomorrow evening" = parse_time now "tomorrow at 7pm" ∧
    parse_time now "tomorrow night" = parse_time now "tomorrow at 9pm" ∧
    parse_time now "monday morning" = parse_time now "monday at 9am" ∧
    parse_time now "next monday morning" = parse_time now "next monday at 9am" :=
  have t9 : parse_time now "tomorrow morning"
      = (some (combineDT (dayOf (addDays now 1)) 540), true, none) := rfl
  have t9b : parse_time now "tomorrow at 9am"
      = (some (combineDT (dayOf (addDays now 1)) 540), true, none) := rfl
  have t15 : parse_time now "tomorrow afternoon"
      = (some (combineDT (dayOf (addDays now 1)) 900), true, none) := rfl
  have t15b : parse_time now "tomorrow at 3pm"
      = (some (combineDT (dayOf (addDays now 1)) 900), true, none) := rfl
  have t19 : parse_time now "tomorrow evening"
      = (some (combineDT (dayOf (addDays now 1)) 1140), true, none) := rfl
  have t19b : parse_time now "tomorrow at 7pm"
      = (some (combineDT (dayOf (addDays now 1)) 1140), true, none) := rfl
  have t21 : parse_time now "tomorrow night"
      = (some (combineDT (dayOf (addDays now 1)) 1260), true, none) := rfl
  have t21b : parse_time now "tomorrow at 9pm"
      = (some (combineDT (dayOf (addDays now 1)) 1260), true, none) := rfl
  have w9 : parse_time now "monday morning" = weekdayBranch now 0 false (some 540) := rfl
  have w9b : parse_time now "monday at 9am" = weekdayBranch now 0 false (some 540) := rfl
  have n9 : parse_time now "next monday morning" = weekdayBranch now 0 true (some 540) := rfl
  have n9b : parse_time now "next monday at 9am" = weekdayBranch now 0 true (some 540) := rfl
  ⟨t9.trans t9b.symm, t15.trans t15b.symm, t19.trans t19b.symm, t21.trans t21b.symm,
   w9.trans w9b.symm, n9.trans n9b.symm⟩

theorem le_foldl_maxId : ∀ (rs : List Reminder) (a : Nat),
    a ≤ rs.foldl (fun m r => Nat.max m r.id) a := by
  intro rs
  induction rs with
  | nil => exact fun a => Nat.le_refl a
  | cons r rs ih =>
    intro a
    calc a ≤ Nat.max a r.id := Nat.le_max_left a r.id
    _ ≤ rs.foldl (fun m r => Nat.max m r.id) (Nat.max a r.id) := ih (Nat.max a r.id)

theorem mem_le_foldl_maxId : ∀ (rs : List Reminder) (a : Nat) (r : Reminder),
    r ∈ rs → r.id ≤ rs.foldl (fun m r => Nat.max m r.id) a := by
  intro rs
  induction rs with
  | nil => intro a r h; cases h
  | cons x xs ih =>
    intro a r h
    rcases List.mem_cons.mp h with h1 | h2
    · subst h1
      calc r.id ≤ Nat.max a r.id := Nat.le_max_right a r.id
      _ ≤ xs.foldl (fun m r => Nat.max m r.id) (Nat.max a r.id) := le_foldl_maxId xs _
    · exact ih (Nat.max a x.id) r h2

theorem markInactiveFirst_map_id (i : Nat) :
    ∀ rs : List Reminder, (markInactiveFirst i rs).map Reminder.id = rs.map Reminder.id := by
  intro rs
  induction rs with
  | nil => rfl
  | cons r rs ih =>
    unfold markInactiveFirst
    split
    · simp
    · simpa using ih

/-- C9: reminder ids are assigned as `max(existing ids) + 1` starting at 1,
so a fresh id exceeds every stored id (deleted or fired records stay in the
collection and keep blocking reuse), deletion by number never changes the
stored id set, and the concrete create-create-create / delete-#2 / create
scenario yields active ids `{1, 3}` and then the fresh id 4. -/
theorem c9_ids_monotone_never_reused (rs : List Reminder) :
    (∀ r, r ∈ rs → r.id < nextReminderId rs) ∧
    nextReminderId rs ∉ rs.map Reminder.id ∧
    (∀ (now : DateTime) (num : Nat),
      (deleteReminderByNumber now num rs).map Reminder.id = rs.map Reminder.id) ∧
    ((toolsSetReminder 0 (some "a") (some "t") (some 1000) [] WriteEvent.ok).1
      = [⟨1, "a", 1000, true⟩] ∧
     (toolsSetReminder 0 (some "b") (some "t") (some 2000) [⟨1, "a", 1000, true⟩]
        WriteEvent.ok).1
      = [⟨1, "a", 1000, true⟩, ⟨2, "b", 2000, true⟩] ∧
     (toolsSetReminder 0 (some "c") (some "t") (some 3000)
        [⟨1, "a", 1000, true⟩, ⟨2, "b", 2000, true⟩] WriteEvent.ok).1
      = [⟨1, "a", 1000, true⟩, ⟨2, "b", 2000, true⟩, ⟨3, "c", 3000, true⟩] ∧
     deleteReminderByNumber 0 2
        [⟨1, "a", 1000, true⟩, ⟨2, "b", 2000, true⟩, ⟨3, "c", 3000, true⟩]
      = [⟨1, "a", 1000, true⟩, ⟨2, "b", 2000, false⟩, ⟨3, "c", 3000, true⟩] ∧
     ((deleteReminderByNumber 0 2
          [⟨1, "a", 1000, true⟩, ⟨2, "b", 2000, true⟩, ⟨3, "c", 3000, true⟩]).filter
        (fun r => r.active)).map Reminder.id = [1, 3] ∧
     (toolsSetReminder 0 (some "d") (some "t") (some 4000)
        [⟨1, "a", 1000, true⟩, ⟨2, "b", 2000, false⟩, ⟨3, "c", 3000, true⟩]
        WriteEvent.ok).1.map Reminder.id = [1, 2, 3, 4]) := by
  refine ⟨?_, ?_, ?_, by decide⟩
  · intro r hr
    have := mem_le_foldl_maxId rs 0 r hr
    exact Nat.lt_succ_of_le this
  · intro hmem
    rcases List.mem_map.mp hmem with ⟨r, hr, hid⟩
    have := mem_le_foldl_maxId rs 0 r hr
    rw [hid] at this
    exact absurd this (by simp [nextReminderId])
  · intro now num
    unfold deleteReminderByNumber
    dsimp only
    split
    · rfl
    · split
      · exact markInactiveFirst_map_id _ rs
      · rfl

/-- Witness for C9 on a concrete two-reminder store. -/
theorem c9_ids_monotone_never_reused_witness :
    (⟨1, "a", 50, true⟩ : Reminder).id <
      nextReminderId [⟨1, "a", 50, true⟩, ⟨4, "b", 60, false⟩] ∧
    nextReminderId [⟨1, "a", 50, true⟩, ⟨4, "b", 60, false⟩] ∉
      ([⟨1, "a", 50, true⟩, ⟨4, "b", 60, false⟩] : List Reminder).map Reminder.id ∧
    (deleteReminderByNumber 0 1 [⟨1, "a", 50, true⟩, ⟨4, "b", 60, false⟩]).map Reminder.id =
      ([⟨1, "a", 50, true⟩, ⟨4, "b", 60, false⟩] : List Reminder).map Reminder.id :=
  ⟨(c9_ids_monotone_never_reused [⟨1, "a", 50, true⟩, ⟨4, "b", 60, false⟩]).1
      ⟨1, "a", 50, true⟩ (by decide),
   (c9_ids_monotone_never_reused [⟨1, "a", 50, true⟩, ⟨4, "b", 60, false⟩]).2.1,
   (c9_ids_monotone_never_reused [⟨1, "a", 50, true⟩, ⟨4, "b", 60, false⟩]).2.2.1 0 1⟩

/-- C10: when the resolved reminder time is strictly before `now`, the
online `set_reminder` tool silently replaces it by `now + 5` minutes before
creating the record, and the confirmation it returns is the very same
template reporting the (shifted) time with no mention of the adjustment;
a time not in the past is kept as is. -/
theorem c10_past_time_silently_shifted (now rt : DateTime) (text when : String)
    (store : List Reminder) :
    (rt < now →
      toolsSetReminder now (some text) (some when) (some rt) store WriteEvent.ok =
        (store ++ [⟨nextReminderId store, text, now + 5, true⟩],
         toolsConfirmMsg (now + 5) text)) ∧
    (¬ rt < now →
      toolsSetReminder now (some text) (some when) (some rt) store WriteEvent.ok =
        (store ++ [⟨nextReminderId store, text, rt, true⟩],
         toolsConfirmMsg rt text)) := by
  constructor
  · intro h
    unfold toolsSetReminder
    dsimp only
    rw [if_pos h]
  · intro h
    unfold toolsSetReminder
    dsimp only
    rw [if_neg h]

/-- Witness for C10: resolved time minute 40 against `now` = minute 100 is
shifted to minute 105; minute 200 is kept. -/
theorem c10_past_time_silently_shifted_witness :
    toolsSetReminder 100 (some "stretch") (some "t") (some 40) [] WriteEvent.ok =
      ([⟨nextReminderId [], "stretch", 100 + 5, true⟩], toolsConfirmMsg (100 + 5) "stretch") ∧
    toolsSetReminder 100 (some "stretch") (some "t") (some 200) [] WriteEvent.ok =
      ([⟨nextReminderId [], "stretch", 200, true⟩], toolsConfirmMsg 200 "stretch") :=
  ⟨(c10_past_time_silently_shifted 100 40 "stretch" "t" []).1 (by decide),
   (c10_past_time_silently_shifted 100 200 "stretch" "t" []).2 (by decide)⟩

end TalkAssist

